import Mathlib

/-
  Verification of the sosar SOS/ProDOS disk-image reader (sosdisk.py).

  Shallow embedding conventions:
  - A disk image is a total function from byte position to byte value
    (Nat to Nat); sosdisk reads the whole image into one buffer and
    addresses it through get_blocks, which is plain offset arithmetic.
  - Python dicts used for the storage index are modelled as association
    lists with replace-or-append update and first-match lookup; every
    construction site in sosdisk writes pairwise distinct keys.
  - Python failures (assert, NameError, ValueError from IntEnum and
    datetime, UnicodeDecodeError) abort decoding; fallible functions
    return Option, with none for any raised exception.
  - Machine integers are Nat; the source only composes u8/u16/u24/u32
    fields out of bytes, so no overflow arithmetic arises.
-/

/-! ## Byte-field helpers (struct.unpack little-endian fields) -/

/-- Byte at offset o of a byte list, 0 when out of range. -/
def byteAt (d : List Nat) (o : Nat) : Nat := d.getD o 0

/-- Little-endian 16-bit field at offset o. -/
def u16At (d : List Nat) (o : Nat) : Nat := byteAt d o + 256 * byteAt d (o + 1)

/-- 24-bit little-endian field, as assembled from the 3-byte eof field:
eof[2] shifted 16 or eof[1] shifted 8 or eof[0]. -/
def u24At (d : List Nat) (o : Nat) : Nat :=
  byteAt d o + 256 * byteAt d (o + 1) + 65536 * byteAt d (o + 2)

/-- Little-endian 32-bit field at offset o. -/
def u32At (d : List Nat) (o : Nat) : Nat :=
  byteAt d o + 256 * byteAt d (o + 1) + 65536 * byteAt d (o + 2) +
    16777216 * byteAt d (o + 3)

/-! ## Python dict model (insertion-ordered association list) -/

/-- Python dict assignment d[k] = v: replace the existing binding of k,
else append a new binding. -/
def dictSet (d : List (Nat × Nat)) (k v : Nat) : List (Nat × Nat) :=
  if d.any (fun p => p.1 == k) then
    d.map (fun p => if p.1 == k then (k, v) else p)
  else d ++ [(k, v)]

/-- Python dict lookup d.get(k) / k in d. -/
def dictGet (d : List (Nat × Nat)) (k : Nat) : Option Nat :=
  (d.find? (fun p => p.1 == k)).map (fun p => p.2)

/-! ## get_blocks

SOSDisk.get_blocks(first_block, count) is a view onto the image buffer
at byte range [first_block*512, (first_block+count)*512).  With the
image as a function, a slice of a block is read out as a list. -/

/-- The len bytes of physical block bn starting at byte offset off
within the block: get_blocks(bn)[off : off+len]. -/
def blockSlice (disk : Nat → Nat) (bn off len : Nat) : List Nat :=
  (List.range len).map (fun k => disk (bn * 512 + off + k))

/-! ## Sector interleave (reinterleave, sosdisk.py lines 18-49)

An interleave table is the underlying list of the Python dict built by
list_to_dict: slot number 0..15 to physical sector number.  The map
computed by compose_dict(src_interleave, invert_dict(dest_interleave))
sends ss to the key of dest_interleave whose value is
src_interleave[ss]; on a duplicate-free table that key is the first
index of the value, List.indexOf. -/

/-- invert_dict(d)[v] for a list-backed dict: the key whose value is v. -/
def invert_get (tab : List Nat) (v : Nat) : Nat := tab.indexOf v

/-- compose_dict(src, invert_dict(dest)) applied to ss. -/
def compose_get (src dest : List Nat) (ss : Nat) : Nat :=
  invert_get dest (src.getD ss 0)

/-- One Python slice assignment of a 256-byte physical sector:
dest_image[dstOff : dstOff+256] = src_image[srcOff : srcOff+256],
with both buffers as functions. -/
def sectorCopy (src dst : Nat → Nat) (srcOff dstOff : Nat) : Nat → Nat :=
  fun p => if dstOff ≤ p ∧ p < dstOff + 256 then src (srcOff + (p - dstOff)) else dst p

/-- The nested loop of reinterleave: for each of 35 tracks and 16 slots,
copy the 256-byte sector at slot ss to slot mapf ss of the same track,
into a fresh zero buffer (bytearray(len(src_image))). -/
def reinterleaveLoop (src_image : Nat → Nat) (mapf : Nat → Nat) : Nat → Nat :=
  (List.range 35).foldl
    (fun acc t =>
      (List.range 16).foldl
        (fun acc2 ss =>
          sectorCopy src_image acc2 ((t * 16 + ss) * 256) ((t * 16 + mapf ss) * 256))
        acc)
    (fun _ => 0)

/-- reinterleave(src_image, src_interleave, dest_interleave): identical
tables return the buffer unchanged (not a copy); otherwise the sector
permutation loop runs with map = compose_dict(src, invert_dict(dest)). -/
def reinterleave (src_image : Nat → Nat) (src_interleave dest_interleave : List Nat) :
    Nat → Nat :=
  if src_interleave = dest_interleave then src_image
  else reinterleaveLoop src_image (compose_get src_interleave dest_interleave)

/-- half_block_to_phys_sect table. -/
def half_block_to_phys_sect : List Nat :=
  [0x00, 0x02, 0x04, 0x06, 0x08, 0x0a, 0x0c, 0x0e,
   0x01, 0x03, 0x05, 0x07, 0x09, 0x0b, 0x0d, 0x0f]

/-- dos_to_phys_sect table. -/
def dos_to_phys_sect : List Nat :=
  [0x0, 0xd, 0xb, 0x9, 0x7, 0x5, 0x3, 0x1,
   0xe, 0xc, 0xa, 0x8, 0x6, 0x4, 0x2, 0xf]

/-- identity table, { k : k for k in range(16) }. -/
def identityTable : List Nat := List.range 16

/-- interleave_tables: ordering name to table. Unknown names would be a
Python KeyError; they are never passed and map to the empty list here. -/
def interleave_tables (name : String) : List Nat :=
  if name = "dos" then dos_to_phys_sect
  else if name = "do" then dos_to_phys_sect
  else if name = "pascal" then half_block_to_phys_sect
  else if name = "phys" then identityTable
  else if name = "po" then half_block_to_phys_sect
  else if name = "prodos" then half_block_to_phys_sect
  else if name = "sos" then half_block_to_phys_sect
  else []

/-- The ordering names that interleave_tables defines. -/
def interleave_names : List String :=
  ["dos", "do", "pascal", "phys", "po", "prodos", "sos"]

/-! ## Filename decode (bytes_to_sos_filename, lines 122-130) -/

/-- Membership in sos_valid_fn_chars: ASCII upper-case letters, digits,
and the dot. -/
def sos_valid_fn_char (c : Nat) : Bool :=
  (65 ≤ c && c ≤ 90) || (48 ≤ c && c ≤ 57) || c == 46

/-- str.lower on one ASCII byte value. -/
def ascii_lower (c : Nat) : Nat := if 65 ≤ c ∧ c ≤ 90 then c + 32 else c

/-- bytes_to_sos_filename(l, b).  Failure of any of: the length asserts,
the ASCII decode (a byte of 128 or more raises UnicodeDecodeError), the
character-set assert on the first l bytes, or the zero-padding assert on
the rest, yields none; success returns the lower-cased name bytes. -/
def bytes_to_sos_filename (l : Nat) (b : List Nat) : Option (List Nat) :=
  if b.length = 15 ∧ 1 ≤ l ∧ l ≤ 15 then
    if (b.take l).all (fun c => c < 128) then
      if (b.take l).all sos_valid_fn_char then
        if (b.drop l).all (fun c => c == 0) then
          some ((b.take l).map ascii_lower)
        else none
      else none
    else none
  else none

/-! ## Timestamp decode (u32_to_sos_timestamp, lines 132-146) -/

/-- A decoded calendar timestamp. -/
structure SOSDateTime where
  year : Nat
  month : Nat
  day : Nat
  hour : Nat
  minute : Nat
deriving DecidableEq

/-- Day count of a month in the proleptic Gregorian calendar. -/
def daysInMonth (y m : Nat) : Nat :=
  if m = 2 then (if y % 4 = 0 ∧ (y % 100 ≠ 0 ∨ y % 400 = 0) then 29 else 28)
  else if m = 4 ∨ m = 6 ∨ m = 9 ∨ m = 11 then 30
  else 31

/-- Models the validation performed by the Python standard library
constructor datetime.datetime(year, month, day, hour, minute): it
raises ValueError unless the year is in [1, 9999], the month in
[1, 12], the day in [1, days in that month], the hour in [0, 23] and
the minute in [0, 59]. -/
def datetime_datetime (y mo d h mi : Nat) : Option SOSDateTime :=
  if 1 ≤ y ∧ y ≤ 9999 ∧ 1 ≤ mo ∧ mo ≤ 12 ∧ 1 ≤ d ∧ d ≤ daysInMonth y mo ∧
      h ≤ 23 ∧ mi ≤ 59 then
    some ⟨y, mo, d, h, mi⟩
  else none

/-- u32_to_sos_timestamp(b): 0 decodes to the absent timestamp
(some none); otherwise the packed fields are range-checked by the
asserts and then handed to datetime.datetime, whose own ValueError also
aborts the decode.  The outer Option is failure, the inner the
present/absent distinction. -/
def u32_to_sos_timestamp (b : Nat) : Option (Option SOSDateTime) :=
  if b = 0 then some none
  else
    let ymd := b % 65536
    let hm := b / 65536
    let year := 1900 + ymd / 512
    let month := (ymd / 32) % 16
    let day := ymd % 32
    let hour := hm / 256
    let minute := hm % 256
    if 1 ≤ month ∧ month ≤ 12 then
      if 1 ≤ day ∧ day ≤ 31 then
        if hour ≤ 23 then
          if minute ≤ 59 then
            (datetime_datetime year month day hour minute).map (fun dt => some dt)
          else none
        else none
      else none
    else none

/-! ## Storage resolvers (SOSStorage and subclasses, lines 195-265) -/

/-- The mutable state a SOSStorage instance carries after construction.
The Python dict self.index is the association list index. -/
structure SOSStorageSt where
  key_pointer : Nat
  index : List (Nat × Nat)
  index_blocks : Nat
  data_blocks : Nat
  last_block_index : Nat
deriving DecidableEq

/-- The state set up by SOSStorage.__init__ alone. -/
def SOSStorage_init (key_pointer : Nat) : SOSStorageSt :=
  { key_pointer := key_pointer, index := [], index_blocks := 0,
    data_blocks := 0, last_block_index := 0 }

/-- SOSStorage.is_sparse(). -/
def is_sparse (st : SOSStorageSt) : Bool :=
  st.data_blocks != st.last_block_index + 1

/-- SOSSeedling.__init__: logical block 0 maps to the key pointer. -/
def SOSSeedling (key_pointer : Nat) : SOSStorageSt :=
  let st := SOSStorage_init key_pointer
  { st with index := dictSet st.index 0 key_pointer,
            data_blocks := st.data_blocks + 1 }

/-- One iteration of the SOSSapling index-block scan: slot j holds
low byte index_data[j] and high byte index_data[j + 256]. -/
def saplingStep (disk : Nat → Nat) (key_pointer : Nat) (st : SOSStorageSt) (j : Nat) :
    SOSStorageSt :=
  let b := disk (key_pointer * 512 + j) + disk (key_pointer * 512 + j + 256) * 256
  if b ≠ 0 then
    { st with index := dictSet st.index j b,
              data_blocks := st.data_blocks + 1,
              last_block_index := j }
  else st

/-- SOSSapling.__init__: scan the 256 slots of the index block named by
the key pointer. -/
def SOSSapling (disk : Nat → Nat) (key_pointer : Nat) : SOSStorageSt :=
  let st := SOSStorage_init key_pointer
  let st := { st with index_blocks := st.index_blocks + 1 }
  (List.range 256).foldl (saplingStep disk key_pointer) st

/-- SOSTree threads one extra piece of state: the Python local variable
b, which is unbound (none) until the inner loop first assigns it. -/
structure SOSTreeSt where
  st : SOSStorageSt
  b : Option Nat
deriving DecidableEq

/-- One iteration of the SOSTree inner loop over secondary slot j.  The
local b is reassigned on every iteration, before the zero test; the
secondary index block data being scanned starts at byte ibase. -/
def treeInnerStep (disk : Nat → Nat) (i ibase : Nat) (t : SOSTreeSt) (j : Nat) :
    SOSTreeSt :=
  let b := disk (ibase + j) + disk (ibase + j + 256) * 256
  if b ≠ 0 then
    { st := { t.st with index := dictSet t.st.index (j * 256 + i) b,
                        data_blocks := t.st.data_blocks + 1,
                        last_block_index := j },
      b := some b }
  else { t with b := some b }

/-- One iteration of the SOSTree outer loop over master slot i.  When
the master slot is non-zero the source evaluates
self.disk.get_blocks(b) with the stale local b (not tb): if b has never
been assigned this raises NameError, modelled as none; otherwise the
inner loop scans the block numbered by that stale value. -/
def treeOuterStep (disk : Nat → Nat) (key_pointer : Nat) (t : SOSTreeSt) (i : Nat) :
    Option SOSTreeSt :=
  let tb := disk (key_pointer * 512 + i) + disk (key_pointer * 512 + i + 256) * 256
  if tb ≠ 0 then
    match t.b with
    | none => none
    | some bv =>
        let t := { t with st := { t.st with index_blocks := t.st.index_blocks + 1 } }
        some ((List.range 256).foldl (treeInnerStep disk i (bv * 512)) t)
  else some t

/-- SOSTree.__init__: scan the 256 master slots of the block named by
the key pointer; the whole construction fails (NameError) if a non-zero
master slot is reached while the local b is still unbound. -/
def SOSTree (disk : Nat → Nat) (key_pointer : Nat) : Option SOSStorageSt :=
  let st := SOSStorage_init key_pointer
  let st := { st with index_blocks := st.index_blocks + 1 }
  ((List.range 256).foldlM (treeOuterStep disk key_pointer) ⟨st, none⟩).map
    (fun t => t.st)

/-- SOSStorage.create: dispatch on the storage type tag.  Seedling and
sapling construction always succeed; tree construction can fail; on any
other tag Python falls through and returns None. -/
def SOSStorage_create (disk : Nat → Nat) (storage_type key_pointer : Nat) :
    Option SOSStorageSt :=
  if storage_type = 1 then some (SOSSeedling key_pointer)
  else if storage_type = 2 then some (SOSSapling disk key_pointer)
  else if storage_type = 3 then SOSTree disk key_pointer
  else none

/-! ## SOSStorage.read (lines 216-229)

The output bytearray starts with the requested length, but each chunk
is written with the slice assignment data[offset : offset+chunk], whose
bounds are clamped to the current buffer length: bytes past the end are
inserted rather than replacing anything. -/

/-- Python bytearray slice assignment d[a : b] = c for a ≤ b: both
bounds clamp to len(d), the clamped range is replaced by c. -/
def sliceAssign (d : List Nat) (a b : Nat) (c : List Nat) : List Nat :=
  d.take (min a d.length) ++ c ++ d.drop (min b d.length)

/-- The while loop of SOSStorage.read.  Each pass consumes at least one
byte of the remaining length, so running it with fuel = initial length
performs every iteration of the source loop. -/
def read_loop (disk : Nat → Nat) (index : List (Nat × Nat)) :
    Nat → List Nat → Nat → Nat → List Nat
  | 0, data, _, _ => data
  | fuel + 1, data, offset, length =>
    if length = 0 then data
    else
      let block_index := offset / 512
      let block_offset := offset % 512
      let chunk_length := min length (512 - block_offset)
      let data :=
        match dictGet index block_index with
        | some block_number =>
            sliceAssign data offset (offset + chunk_length)
              (blockSlice disk block_number block_offset chunk_length)
        | none => data
      read_loop disk index fuel data (offset + chunk_length) (length - chunk_length)

/-- SOSStorage.read(offset, length) of a resolver with the given index,
over the given disk image. -/
def SOSStorage_read (disk : Nat → Nat) (index : List (Nat × Nat))
    (offset length : Nat) : List Nat :=
  read_loop disk index length (List.replicate length 0) offset length

/-! ## Directory entries (SOSDirectoryEntry and subclasses, lines 267-478)

The parsed-object level of the directory tree.  A Python SOSFileEntry
instance carries a storage attribute exactly when its storage type is
seedling, sapling or tree, and a subdir attribute exactly when it is a
subdirectory; an unused entry returns from __init__ before any of
those attributes exist. -/

/-- Fields of a volume directory or subdirectory header record. -/
structure SOSHeaderRec where
  storage_type : Nat
  name : List Nat
  creation : Option SOSDateTime
  version : Nat
  min_version : Nat
  access : Nat
  entry_length : Nat
  entries_per_block : Nat
  file_count : Nat
  bitmap_pointer : Nat
  total_blocks : Nat
deriving DecidableEq

/-- Fields of an active file entry record. -/
structure SOSFileRec where
  storage_type : Nat
  name : List Nat
  file_type : Nat
  key_pointer : Nat
  blocks_used : Nat
  eof : Nat
  creation : Option SOSDateTime
  version : Nat
  min_version : Nat
  access : Nat
  aux_type : Nat
  last_mod : Nat
  header_pointer : Nat
deriving DecidableEq

mutual
inductive SOSEntry : Type where
  | volumeHeader (h : SOSHeaderRec)
  | subdirHeader (h : SOSHeaderRec)
  | unusedEntry
  | fileEntry (fe : SOSFileRec) (storage : SOSStorageSt)
  | subdirEntry (fe : SOSFileRec) (subdir : SOSDirectory)
inductive SOSDirectoryBlock : Type where
  | mk (prev_block next_block : Nat) (entries : List SOSEntry)
inductive SOSDirectory : Type where
  | mk (directory_blocks : List SOSDirectoryBlock)
end

/-- isinstance(entry, SOSFileEntry): unused entries, stored files and
subdirectory entries are all SOSFileEntry instances; headers are not. -/
def isFileEntryInstance : SOSEntry → Bool
  | .unusedEntry => true
  | .fileEntry _ _ => true
  | .subdirEntry _ _ => true
  | _ => false

/-- entry.storage_type != StorageType.unused_entry, on the entry kinds
that files() tests it on. -/
def storageTypeNotUnused : SOSEntry → Bool
  | .unusedEntry => false
  | .fileEntry fe _ => fe.storage_type != 0
  | .subdirEntry fe _ => fe.storage_type != 0
  | _ => true

/-- hasattr(entry, 'storage'): only set by the seedling/sapling/tree
branch of SOSFileEntry.__init__. -/
def hasStorageAttr : SOSEntry → Bool
  | .fileEntry _ _ => true
  | _ => false

/-- SOSDirectory.files(path, recursive): iterate the directory blocks
in chain order and each block's entries in slot order, yielding the
entries that pass the three tests.  The path and recursive arguments
are accepted and never used. -/
def SOSDirectory.files (dir : SOSDirectory) (path : String) (recursive : Bool) :
    List SOSEntry :=
  match dir with
  | .mk directory_blocks =>
      directory_blocks.foldr
        (fun db acc =>
          match db with
          | .mk _ _ entries =>
              entries.filter
                (fun entry =>
                  isFileEntryInstance entry && storageTypeNotUnused entry &&
                    hasStorageAttr entry) ++ acc)
        []

/-- SOSDisk.files(path, recursive): delegates to the volume directory. -/
def SOSDisk_files (volume_directory : SOSDirectory) (path : String)
    (recursive : Bool) : List SOSEntry :=
  volume_directory.files path recursive

/-- The set of tag values of the StorageType IntEnum; the conversion
StorageType(x) raises ValueError on any other value. -/
def storageTypeValid (t : Nat) : Bool :=
  t == 0 || t == 1 || t == 2 || t == 3 || t == 4 || t == 5 ||
    t == 13 || t == 14 || t == 15

/-- The 15 filename bytes of a 39-byte entry record (offsets 1-15). -/
def nameField (d : List Nat) : List Nat :=
  (List.range 15).map (fun i => byteAt d (1 + i))

/-- SOSFileEntry.__init__ over the 39 raw entry bytes, unpacked with
format B 15s B H H 3s L B B B H L H.  The subdirectory branch
constructs a nested SOSDirectory; that construction is abstracted as
the function subParse from key pointer to parsed directory, so that
this decoder is independent of the chain-walking layer.  Any assert
failure, enum ValueError, name, timestamp or nested failure is none. -/
def SOSFileEntry (subParse : Nat → Option SOSDirectory) (disk : Nat → Nat)
    (entry_data : List Nat) : Option SOSEntry :=
  if entry_data.length = 39 then
    let storage_nl := byteAt entry_data 0
    let name_length := storage_nl % 16
    let storage_type := storage_nl / 16
    if storageTypeValid storage_type then
      if storage_type = 0 then some .unusedEntry
      else
        let file_type := byteAt entry_data 16
        let key_pointer := u16At entry_data 17
        let blocks_used := u16At entry_data 19
        let eof := u24At entry_data 21
        match bytes_to_sos_filename name_length (nameField entry_data) with
        | none => none
        | some name =>
          match u32_to_sos_timestamp (u32At entry_data 24) with
          | none => none
          | some creation =>
            let rec_fields : SOSFileRec :=
              { storage_type := storage_type, name := name,
                file_type := file_type, key_pointer := key_pointer,
                blocks_used := blocks_used, eof := eof, creation := creation,
                version := byteAt entry_data 28,
                min_version := byteAt entry_data 29,
                access := byteAt entry_data 30,
                aux_type := u16At entry_data 31,
                last_mod := u32At entry_data 33,
                header_pointer := u16At entry_data 37 }
            if storage_type = 13 then
              if file_type = 15 then
                match subParse key_pointer with
                | none => none
                | some subdir => some (.subdirEntry rec_fields subdir)
              else none
            else
              if storage_type = 1 ∨ storage_type = 2 ∨ storage_type = 3 then
                if file_type ≠ 15 then
                  match SOSStorage_create disk storage_type key_pointer with
                  | none => none
                  | some storage => some (.fileEntry rec_fields storage)
                else none
              else none
    else none
  else none

/-- SOSVolumeDirectoryHeader.__init__ over the 39 raw entry bytes,
unpacked with format B 15s 8s L B B B B B H H H; block_count is the
owning disk's block count (image byte length divided by 512).  The
asserts run in source order: storage type tag, version, min_version,
entry_length 39, entries_per_block 13, total_blocks equal to the disk
block count, then the creation timestamp decode. -/
def SOSVolumeDirectoryHeader (block_count : Nat) (entry_data : List Nat) :
    Option SOSHeaderRec :=
  if entry_data.length = 39 then
    let storage_nl := byteAt entry_data 0
    let name_length := storage_nl % 16
    let storage_type := storage_nl / 16
    if storageTypeValid storage_type then
      match bytes_to_sos_filename name_length (nameField entry_data) with
      | none => none
      | some name =>
        if storage_type = 15 then
          if byteAt entry_data 28 = 0 then
            if byteAt entry_data 29 = 0 then
              if byteAt entry_data 31 = 39 then
                if byteAt entry_data 32 = 13 then
                  if u16At entry_data 37 = block_count then
                    match u32_to_sos_timestamp (u32At entry_data 24) with
                    | none => none
                    | some creation =>
                        some { storage_type := storage_type, name := name,
                               creation := creation,
                               version := byteAt entry_data 28,
                               min_version := byteAt entry_data 29,
                               access := byteAt entry_data 30,
                               entry_length := byteAt entry_data 31,
                               entries_per_block := byteAt entry_data 32,
                               file_count := u16At entry_data 33,
                               bitmap_pointer := u16At entry_data 35,
                               total_blocks := u16At entry_data 37 }
                  else none
                else none
              else none
            else none
          else none
        else none
    else none
  else none

/-! ## Allocation bitmap sizing (SOSDisk.__read_image_file, line 508,
and SOSAllocationBitmap, lines 149-154) -/

/-- The bitmap block count computed when an existing image is opened:
(total_blocks + 1) // (block_size * 8), with floor division. -/
def bitmap_block_count (total_blocks block_size : Nat) : Nat :=
  (total_blocks + 1) / (block_size * 8)

/-- Modelled from the spec: the AllocationBitmap length in blocks is
ceil((total_blocks + 1) / (block_size * 8)).  This is the reference
definition the claim states, for comparison with the one the open path
computes. -/
def bitmapBlockCountSpec (total_blocks block_size : Nat) : Nat :=
  (total_blocks + 1 + (block_size * 8 - 1)) / (block_size * 8)

/-- The bytes loaded by SOSAllocationBitmap.__init__:
get_blocks(start_block, bitmap_block_count). -/
def SOSAllocationBitmap_data (disk : Nat → Nat) (start_block count : Nat) :
    List Nat :=
  (List.range (count * 512)).map (fun k => disk (start_block * 512 + k))

/-! ## Concrete sample inputs used by the closed theorems below -/

/-- An image whose block 3 is a master index block with slot 0 naming
block 1 (low byte 1, high byte 0); all other bytes zero. -/
def diskTreeSample : Nat → Nat := fun p => if p = 1536 then 1 else 0

/-- An image for the sapling example: block 5 is an index block whose
slot 0 names block 10 and slot 2 names block 11 (slot 1 absent), block
10 holds the pattern (k+1) mod 256 and block 11 the pattern (k+3) mod
256; everything else is zero. -/
def diskSaplingSample : Nat → Nat := fun p =>
  if p = 2560 then 10
  else if p = 2562 then 11
  else if 5120 ≤ p ∧ p < 5632 then (p - 5120 + 1) % 256
  else if 5632 ≤ p ∧ p < 6144 then (p - 5632 + 3) % 256
  else 0

/-- A volume directory header record for the sample directories. -/
def sampleVolHeader : SOSHeaderRec :=
  { storage_type := 15, name := [97], creation := none, version := 0,
    min_version := 0, access := 0xe3, entry_length := 39,
    entries_per_block := 13, file_count := 1, bitmap_pointer := 6,
    total_blocks := 280 }

/-- A subdirectory header record for the sample directories. -/
def sampleSubHeader : SOSHeaderRec :=
  { sampleVolHeader with storage_type := 14 }

/-- The file record of a seedling file stored inside the sample
subdirectory. -/
def nestedFileRec : SOSFileRec :=
  { storage_type := 1, name := [98], file_type := 4, key_pointer := 20,
    blocks_used := 1, eof := 12, creation := none, version := 0,
    min_version := 0, access := 0xe3, aux_type := 0, last_mod := 0,
    header_pointer := 7 }

/-- The parsed entry of that nested seedling file. -/
def nestedFile : SOSEntry := .fileEntry nestedFileRec (SOSSeedling 20)

/-- The file record of the subdirectory entry in the sample root. -/
def sampleSubdirRec : SOSFileRec :=
  { storage_type := 13, name := [99], file_type := 15, key_pointer := 7,
    blocks_used := 1, eof := 512, creation := none, version := 0,
    min_version := 0, access := 0xe3, aux_type := 0, last_mod := 0,
    header_pointer := 2 }

/-- A one-block subdirectory holding the nested seedling file. -/
def sampleSubdir : SOSDirectory :=
  .mk [.mk 0 0 [.subdirHeader sampleSubHeader, nestedFile]]

/-- A one-block root volume directory whose only active entry is the
subdirectory. -/
def sampleRoot : SOSDirectory :=
  .mk [.mk 0 0 [.volumeHeader sampleVolHeader, .subdirEntry sampleSubdirRec sampleSubdir]]

/-- 39 zero bytes, an entry record whose every field is zero. -/
def zeroEntry39 : List Nat := List.replicate 39 0

/-- A 15-byte filename field holding ABC followed by zero padding. -/
def nameFieldSample : List Nat :=
  [65, 66, 67, 0, 0, 0, 0, 0, 0, 0, 0, 0, 0, 0, 0]

/-- A 39-byte entry record whose first byte carries storage type 4
(pascal_area) and name length 1, with a valid name byte. -/
def pascalAreaEntry : List Nat :=
  0x41 :: 65 :: List.replicate 37 0

/-! ## Theorems -/

set_option maxRecDepth 1000000

/-- If the master index block of a tree has any non-zero slot, the
whole outer fold fails: the threaded local b is still unbound (none)
when the first such slot is reached, and a failure is final. -/
theorem tree_foldlM_none (disk : Nat → Nat) (kp : Nat) (l : List Nat) (t : SOSTreeSt)
    (hb : t.b = none)
    (hex : ∃ i ∈ l, disk (kp * 512 + i) + disk (kp * 512 + i + 256) * 256 ≠ 0) :
    l.foldlM (treeOuterStep disk kp) t = none := by
  induction l generalizing t with
  | nil => simp at hex
  | cons a l ih =>
    obtain ⟨i, hmem, hne⟩ := hex
    by_cases ha : disk (kp * 512 + a) + disk (kp * 512 + a + 256) * 256 ≠ 0
    · simp [List.foldlM, treeOuterStep, ha, hb]
    · rcases List.mem_cons.mp hmem with rfl | hmem2
      · exact absurd hne ha
      · have hstep : treeOuterStep disk kp t a = some t := by
          simp [treeOuterStep, not_not.mp ha]
        simp [List.foldlM, hstep]
        exact ih t hb ⟨i, hmem2, hne⟩

/-- Claim C1: for a Tree storage resolver built from a key pointer, the
resolver should map combined logical index s*256 + m to the physical
block at secondary slot s of the block named by master slot m, with
last_block_index the maximum combined index.  The code never gets
there: for every image and key pointer whose master index block has at
least one non-zero slot, SOSTree construction fails, because the
source reads get_blocks(b) with the local b unbound (a NameError; the
master slot value is in tb, not b). -/
theorem claim_C1_tree_construction_fails (disk : Nat → Nat) (key_pointer : Nat)
    (h : ∃ i, i < 256 ∧
      disk (key_pointer * 512 + i) + disk (key_pointer * 512 + i + 256) * 256 ≠ 0) :
    SOSTree disk key_pointer = none := by
  obtain ⟨i, hi, hne⟩ := h
  simp only [SOSTree]
  rw [tree_foldlM_none disk key_pointer _ _ rfl ⟨i, List.mem_range.mpr hi, hne⟩]
  rfl

/-- Witness: the sample image whose master index block (block 3) names
block 1 in slot 0 makes tree construction fail. -/
theorem claim_C1_witness : SOSTree diskTreeSample 3 = none :=
  claim_C1_tree_construction_fails diskTreeSample 3 ⟨0, by decide, by decide⟩

/-- Claim C2: read(offset, length) should return exactly length bytes.
Evaluating the code at the failing input: on the sapling resolver with
index {0: 10, 2: 11}, read(1024, 512) returns 1024 bytes, because the
chunk is written at data[offset : offset+chunk] with the file-absolute
offset, and a slice assignment past the end of the length-sized buffer
inserts instead of replacing. -/
theorem claim_C2_read_length_wrong :
    (SOSStorage_read diskSaplingSample (SOSSapling diskSaplingSample 5).index
      1024 512).length = 1024 := by decide

/-- Claim C4: the bitmap block count the open path computes for a
280-block volume is (280 + 1) // 4096 = 0 blocks of bitmap data, where
the claimed ceiling formula gives 1: the source uses floor division
where its own filesystem-creation path uses math.ceil. -/
theorem claim_C4_bitmap_count_floor_not_ceil :
    bitmap_block_count 280 512 = 0 ∧
    bitmapBlockCountSpec 280 512 = 1 ∧
    SOSAllocationBitmap_data (fun _ => 0) 6 (bitmap_block_count 280 512) = [] := by
  decide

/-- Claim C5: files(path, recursive) with recursive true should yield
nested entries depth-first.  Evaluating the code on a root directory
whose only active entry is a subdirectory holding one seedling file:
the root listing is empty (the subdirectory entry has no storage
attribute and is never recursed into), even though listing the nested
directory itself yields the file. -/
theorem claim_C5_files_not_recursive :
    SOSDisk_files sampleRoot "" true = [] ∧
    sampleSubdir.files "" true = [nestedFile] := by
  exact ⟨rfl, rfl⟩

/-- Claim C6: on the sapling resolver with map {0: 10, 2: 11} the first
two reads and the sparseness facts are as claimed, but read(1024, 512)
returns 1024 bytes (512 zeros followed by block 11), not block 11
alone. -/
theorem claim_C6_sapling_example :
    (SOSSapling diskSaplingSample 5).index = [(0, 10), (2, 11)] ∧
    SOSStorage_read diskSaplingSample (SOSSapling diskSaplingSample 5).index 0 512 =
      blockSlice diskSaplingSample 10 0 512 ∧
    SOSStorage_read diskSaplingSample (SOSSapling diskSaplingSample 5).index 512 512 =
      List.replicate 512 0 ∧
    SOSStorage_read diskSaplingSample (SOSSapling diskSaplingSample 5).index 1024 512 =
      List.replicate 512 0 ++ blockSlice diskSaplingSample 11 0 512 ∧
    is_sparse (SOSSapling diskSaplingSample 5) = true ∧
    (SOSSapling diskSaplingSample 5).data_blocks = 2 ∧
    (SOSSapling diskSaplingSample 5).last_block_index = 2 := by
  refine ⟨by decide, by decide, by decide, by decide, by decide, by decide, by decide⟩

/-- Claim C7 counterexample: the non-zero timestamp value 44126 packs
year 1986, month 2, day 30, hour 0, minute 0.  All four claimed range
checks pass (month in 1..12, day in 1..31, hour in 0..23, minute in
0..59), yet decoding fails, because datetime.datetime rejects February
30. -/
theorem claim_C7_counterexample :
    u32_to_sos_timestamp 44126 = none ∧
    (44126 : Nat) ≠ 0 ∧
    1 ≤ (44126 % 65536 / 32) % 16 ∧ (44126 % 65536 / 32) % 16 ≤ 12 ∧
    1 ≤ 44126 % 65536 % 32 ∧ 44126 % 65536 % 32 ≤ 31 ∧
    44126 / 65536 / 256 ≤ 23 ∧ 44126 / 65536 % 256 ≤ 59 := by decide

/-- Claim C7, amended: value 0 decodes to absent; a non-zero value
decodes successfully to the extracted calendar fields exactly when the
month is in 1..12, the hour in 0..23, the minute in 0..59, and the day
is in 1..days-in-that-month of the decoded year (so a day in 1..31
that is invalid for the month, such as February 30, also fails). -/
theorem claim_C7_amended (b : Nat) (hb : b ≠ 0) :
    (u32_to_sos_timestamp 0 = some none) ∧
    (u32_to_sos_timestamp b =
        some (some ⟨1900 + b % 65536 / 512, (b % 65536 / 32) % 16, b % 65536 % 32,
                    b / 65536 / 256, b / 65536 % 256⟩) ↔
      (1 ≤ (b % 65536 / 32) % 16 ∧ (b % 65536 / 32) % 16 ≤ 12 ∧
       1 ≤ b % 65536 % 32 ∧
       b % 65536 % 32 ≤ daysInMonth (1900 + b % 65536 / 512) ((b % 65536 / 32) % 16) ∧
       b / 65536 / 256 ≤ 23 ∧ b / 65536 % 256 ≤ 59)) ∧
    (u32_to_sos_timestamp b = none ↔
      ¬(1 ≤ (b % 65536 / 32) % 16 ∧ (b % 65536 / 32) % 16 ≤ 12 ∧
       1 ≤ b % 65536 % 32 ∧
       b % 65536 % 32 ≤ daysInMonth (1900 + b % 65536 / 512) ((b % 65536 / 32) % 16) ∧
       b / 65536 / 256 ≤ 23 ∧ b / 65536 % 256 ≤ 59)) := by
  refine ⟨rfl, ?_, ?_⟩ <;>
  · simp only [u32_to_sos_timestamp, if_neg hb, datetime_datetime]
    have hd31 : daysInMonth (1900 + b % 65536 / 512) ((b % 65536 / 32) % 16) ≤ 31 := by
      unfold daysInMonth
      split_ifs <;> omega
    have hy : b % 65536 / 512 ≤ 127 := by omega
    split_ifs <;> simp_all <;> omega

/-- Witness: the timestamp word for 1986-02-14 12:30 decodes to that
date and time. -/
theorem claim_C7_witness :
    u32_to_sos_timestamp 203336782 = some (some ⟨1986, 2, 14, 12, 30⟩) :=
  ((claim_C7_amended 203336782 (by decide)).2.1).mpr (by decide)

/-- Claim C8: whenever the total_blocks field (bytes 37-38) of a volume
directory header record differs from the block count derived from the
image size, the header decode fails, whatever the other 37 bytes hold;
the failure propagates out of SOSDirectory and SOSDisk construction, so
no disk object is produced. -/
theorem claim_C8_total_blocks_mismatch (entry_data : List Nat) (block_count : Nat)
    (h : u16At entry_data 37 ≠ block_count) :
    SOSVolumeDirectoryHeader block_count entry_data = none := by
  unfold SOSVolumeDirectoryHeader
  repeat' split
  all_goals first | rfl | (exfalso; omega) | simp_all
  all_goals intro _
  all_goals (split <;> rfl)

/-- Witness: an all-zero header record against a 7-block image. -/
theorem claim_C8_witness : SOSVolumeDirectoryHeader 7 zeroEntry39 = none :=
  claim_C8_total_blocks_mismatch zeroEntry39 7 (by decide)

/-- Bounded all over a list front, as indexed access. -/
theorem all_take_iff (p : Nat → Bool) (b : List Nat) (l : Nat) (hl : l ≤ b.length) :
    ((b.take l).all p = true) ↔ ∀ i, i < l → p (b.getD i 0) = true := by
  rw [List.all_eq_true]
  constructor
  · intro hA i hi
    have hi2 : i < b.length := lt_of_lt_of_le hi hl
    have hi3 : i < (b.take l).length := by simp; omega
    have hmem := hA ((b.take l)[i]) (List.getElem_mem hi3)
    have heq : (b.take l)[i] = b.getD i 0 := by
      rw [List.getElem_take .., List.getD_eq_getElem b 0 hi2]
    rwa [heq] at hmem
  · intro hA x hx
    obtain ⟨i, hi, rfl⟩ := List.mem_iff_getElem.mp hx
    have hi2 : i < b.length := by simp at hi; omega
    have hil : i < l := by simp at hi; omega
    have heq : (b.take l)[i] = b.getD i 0 := by
      rw [List.getElem_take .., List.getD_eq_getElem b 0 hi2]
    rw [heq]
    exact hA i hil

/-- Bounded all over a list tail, as indexed access. -/
theorem all_drop_iff (p : Nat → Bool) (b : List Nat) (l : Nat) :
    ((b.drop l).all p = true) ↔ ∀ i, l ≤ i → i < b.length → p (b.getD i 0) = true := by
  rw [List.all_eq_true]
  constructor
  · intro hA i hli hi
    have hi3 : i - l < (b.drop l).length := by simp; omega
    have hmem := hA ((b.drop l)[i - l]) (List.getElem_mem hi3)
    have heq : (b.drop l)[i - l] = b.getD i 0 := by
      rw [List.getElem_drop .., List.getD_eq_getElem b 0 hi]
      congr 1
      omega
    rwa [heq] at hmem
  · intro hA x hx
    obtain ⟨i, hi, rfl⟩ := List.mem_iff_getElem.mp hx
    have hi2 : l + i < b.length := by simp at hi; omega
    have heq : (b.drop l)[i] = b.getD (l + i) 0 := by
      rw [List.getElem_drop .., List.getD_eq_getElem b 0 hi2]
    rw [heq]
    exact hA (l + i) (by omega) hi2

/-- Every byte passing the filename character test is ASCII. -/
theorem valid_char_lt_128 (c : Nat) (h : sos_valid_fn_char c = true) : c < 128 := by
  unfold sos_valid_fn_char at h
  simp only [Bool.or_eq_true, Bool.and_eq_true, decide_eq_true_eq, beq_iff_eq] at h
  omega

/-- Claim C9: for a 15-byte filename field with declared length l in
1..15, decoding succeeds with the lower-cased name exactly when the
first l bytes are all upper-case letters, digits or dots and the
remaining bytes are all zero; a lower-case letter among the first l
bytes, or a non-zero byte beyond position l, makes it fail. -/
theorem claim_C9_filename_decode (b : List Nat) (l : Nat) (hlen : b.length = 15)
    (h1 : 1 ≤ l) (h15 : l ≤ 15) :
    (bytes_to_sos_filename l b = some ((b.take l).map ascii_lower) ↔
      ((∀ i, i < l → sos_valid_fn_char (b.getD i 0) = true) ∧
       (∀ i, l ≤ i → i < 15 → b.getD i 0 = 0))) ∧
    (∀ i, i < l → 97 ≤ b.getD i 0 → b.getD i 0 ≤ 122 →
      bytes_to_sos_filename l b = none) ∧
    (∀ i, l ≤ i → i < 15 → b.getD i 0 ≠ 0 → bytes_to_sos_filename l b = none) := by
  have hl : l ≤ b.length := by omega
  have hg : bytes_to_sos_filename l b =
      if (b.take l).all (fun c => c < 128) then
        if (b.take l).all sos_valid_fn_char then
          if (b.drop l).all (fun c => c == 0) then
            some ((b.take l).map ascii_lower)
          else none
        else none
      else none := by
    unfold bytes_to_sos_filename
    rw [if_pos ⟨hlen, h1, h15⟩]
  refine ⟨?_, ?_, ?_⟩
  · rw [hg]
    constructor
    · intro hsome
      by_cases hA : (b.take l).all (fun c => c < 128) = true
      · rw [if_pos hA] at hsome
        by_cases hV : (b.take l).all sos_valid_fn_char = true
        · rw [if_pos hV] at hsome
          by_cases hZ : (b.drop l).all (fun c => c == 0) = true
          · refine ⟨(all_take_iff _ b l hl).mp hV, ?_⟩
            have hall := (all_drop_iff (fun c => c == 0) b l).mp hZ
            intro i ha hb2
            have hbe := hall i ha (by omega)
            simpa using hbe
          · rw [if_neg hZ] at hsome; exact absurd hsome (by simp)
        · rw [if_neg hV] at hsome; exact absurd hsome (by simp)
      · rw [if_neg hA] at hsome; exact absurd hsome (by simp)
    · rintro ⟨hv, hz⟩
      have hV : (b.take l).all sos_valid_fn_char = true :=
        (all_take_iff _ b l hl).mpr hv
      have hA : (b.take l).all (fun c => c < 128) = true := by
        rw [all_take_iff _ b l hl]
        intro i hi
        simpa using valid_char_lt_128 _ (hv i hi)
      have hZ : (b.drop l).all (fun c => c == 0) = true := by
        rw [all_drop_iff _ b l]
        intro i ha hb2
        have := hz i ha (by omega)
        show (b.getD i 0 == 0) = true
        rw [this]
        rfl
      rw [if_pos hA, if_pos hV, if_pos hZ]
  · intro i hi hlo hhi
    rw [hg]
    by_cases hA : (b.take l).all (fun c => c < 128) = true
    · have hV : ¬ (b.take l).all sos_valid_fn_char = true := by
        intro hV
        have hval := (all_take_iff _ b l hl).mp hV i hi
        unfold sos_valid_fn_char at hval
        simp only [Bool.or_eq_true, Bool.and_eq_true, decide_eq_true_eq,
          beq_iff_eq] at hval
        omega
      rw [if_pos hA, if_neg hV]
    · rw [if_neg hA]
  · intro i ha hb2 hnz
    rw [hg]
    have hZ : ¬ (b.drop l).all (fun c => c == 0) = true := by
      intro hZ
      have hbe := (all_drop_iff _ b l).mp hZ i ha (by omega)
      exact hnz (by simpa using hbe)
    by_cases hA : (b.take l).all (fun c => c < 128) = true
    · by_cases hV : (b.take l).all sos_valid_fn_char = true
      · rw [if_pos hA, if_pos hV, if_neg hZ]
      · rw [if_pos hA, if_neg hV]
    · rw [if_neg hA]

/-- Witness: the field holding ABC with zero padding decodes to abc. -/
theorem claim_C9_witness :
    bytes_to_sos_filename 3 nameFieldSample =
      some ((nameFieldSample.take 3).map ascii_lower) :=
  (claim_C9_filename_decode nameFieldSample 3 (by decide) (by decide) (by decide)).1.mpr
    (by decide)

/-- Unfolding files on a non-empty block chain. -/
theorem files_cons_eq (p n : Nat) (entries : List SOSEntry)
    (bs : List SOSDirectoryBlock) (path : String) (r : Bool) :
    SOSDirectory.files (.mk (.mk p n entries :: bs)) path r =
      entries.filter
        (fun entry =>
          isFileEntryInstance entry && storageTypeNotUnused entry &&
            hasStorageAttr entry) ++ SOSDirectory.files (.mk bs) path r := rfl

/-- Every element yielded by files passed the storage-attribute test,
which only the stored-file constructor satisfies. -/
theorem files_mem_aux (blocks : List SOSDirectoryBlock) (path : String) (r : Bool)
    (e : SOSEntry) (he : e ∈ SOSDirectory.files (.mk blocks) path r) :
    ∃ fe st, e = SOSEntry.fileEntry fe st := by
  induction blocks with
  | nil => simp [SOSDirectory.files] at he
  | cons db bs ih =>
    cases db with
    | mk p n entries =>
      rw [files_cons_eq] at he
      rcases List.mem_append.mp he with hf | hr
      · have hpred := (List.mem_filter.mp hf).2
        simp only [Bool.and_eq_true] at hpred
        cases e with
        | fileEntry fe st => exact ⟨fe, st, rfl⟩
        | volumeHeader h => simp [isFileEntryInstance] at hpred
        | subdirHeader h => simp [isFileEntryInstance] at hpred
        | unusedEntry => simp [storageTypeNotUnused] at hpred
        | subdirEntry fe sub => simp [hasStorageAttr] at hpred
      · exact ih hr

/-- Claim C10: a file entry whose storage type tag is none of unused,
seedling, sapling, tree or subdirectory fails to decode (the failure
aborts the enclosing directory parse and disk construction); an entry
that decodes to a stored file has tag seedling, sapling or tree; and
every entry yielded by files is such a stored file. -/
theorem claim_C10_storage_type_dispatch :
    (∀ (subParse : Nat → Option SOSDirectory) (disk : Nat → Nat)
        (entry_data : List Nat),
      byteAt entry_data 0 / 16 ≠ 0 → byteAt entry_data 0 / 16 ≠ 1 →
      byteAt entry_data 0 / 16 ≠ 2 → byteAt entry_data 0 / 16 ≠ 3 →
      byteAt entry_data 0 / 16 ≠ 13 →
      SOSFileEntry subParse disk entry_data = none) ∧
    (∀ (subParse : Nat → Option SOSDirectory) (disk : Nat → Nat)
        (entry_data : List Nat) (fe : SOSFileRec) (st : SOSStorageSt),
      SOSFileEntry subParse disk entry_data = some (.fileEntry fe st) →
      fe.storage_type = 1 ∨ fe.storage_type = 2 ∨ fe.storage_type = 3) ∧
    (∀ (dir : SOSDirectory) (path : String) (r : Bool) (e : SOSEntry),
      e ∈ dir.files path r → ∃ fe st, e = SOSEntry.fileEntry fe st) := by
  refine ⟨?_, ?_, ?_⟩
  · intro subParse disk entry_data h0 h1 h2 h3 h13
    simp only [SOSFileEntry]
    repeat' split
    all_goals first | rfl | (exfalso; omega) | simp_all
  · intro subParse disk entry_data fe st h
    simp only [SOSFileEntry] at h
    repeat' split at h
    all_goals simp_all
    all_goals (rcases h with ⟨hrec, hst⟩; subst hrec; assumption)
  · intro dir path r e he
    cases dir with
    | mk blocks => exact files_mem_aux blocks path r e he

/-- Witness: a pascal_area entry record (tag 4) fails to decode. -/
theorem claim_C10_witness :
    SOSFileEntry (fun _ => none) (fun _ => 0) pascalAreaEntry = none :=
  claim_C10_storage_type_dispatch.1 (fun _ => none) (fun _ => 0) pascalAreaEntry
    (by decide) (by decide) (by decide) (by decide) (by decide)

/-- A sector copy leaves every byte outside the destination sector
unchanged. -/
theorem sectorCopy_ne (src dst : Nat → Nat) (S D P : Nat) (hne : P / 256 ≠ D) :
    sectorCopy src dst S (D * 256) P = dst P := by
  unfold sectorCopy
  rw [if_neg]
  rintro ⟨h1, h2⟩
  exact hne (by omega)

/-- A sector copy places the source sector bytes at the destination
sector. -/
theorem sectorCopy_eq (src dst : Nat → Nat) (S D o : Nat) (ho : o < 256) :
    sectorCopy src dst S (D * 256) (D * 256 + o) = src (S + o) := by
  unfold sectorCopy
  rw [if_pos (by omega)]
  congr 1
  omega

/-- The inner slot loop leaves a byte unchanged when no processed slot
maps to its sector. -/
theorem innerFold_untouched (src mapf : Nat → Nat) (t : Nat) (l : List Nat)
    (acc : Nat → Nat) (P : Nat)
    (h : ∀ ss ∈ l, t * 16 + mapf ss ≠ P / 256) :
    (l.foldl
      (fun acc2 ss =>
        sectorCopy src acc2 ((t * 16 + ss) * 256) ((t * 16 + mapf ss) * 256)) acc) P =
      acc P := by
  induction l generalizing acc with
  | nil => rfl
  | cons a l ih =>
    rw [List.foldl_cons, ih _ (fun ss hss => h ss (List.mem_cons_of_mem a hss))]
    have hne := h a (List.mem_cons_self a l)
    exact sectorCopy_ne src acc _ _ P (fun hP => hne hP.symm)

/-- After the full inner loop of track t, the byte at slot mapf s0 of
track t holds the source byte at slot s0: slot s0 writes it and, by
injectivity, no later slot overwrites it. -/
theorem innerFold_value (src mapf : Nat → Nat) (t s0 : Nat) (acc : Nat → Nat) (o : Nat)
    (hs0 : s0 < 16) (ho : o < 256)
    (hinj : ∀ s1, s1 < 16 → ∀ s2, s2 < 16 → mapf s1 = mapf s2 → s1 = s2) :
    ((List.range 16).foldl
      (fun acc2 ss =>
        sectorCopy src acc2 ((t * 16 + ss) * 256) ((t * 16 + mapf ss) * 256)) acc)
      ((t * 16 + mapf s0) * 256 + o) = src ((t * 16 + s0) * 256 + o) := by
  have hsplit : List.range 16 =
      List.range (s0 + 1) ++ (List.range (15 - s0)).map (fun x => (s0 + 1) + x) := by
    rw [← List.range_add]
    congr 1
    omega
  rw [hsplit, List.foldl_append, List.range_succ, List.foldl_append]
  rw [innerFold_untouched]
  · rw [List.foldl_cons, List.foldl_nil]
    exact sectorCopy_eq src _ _ _ o ho
  · intro ss hss
    obtain ⟨k, hk, rfl⟩ := List.mem_map.mp hss
    have hklt : k < 15 - s0 := List.mem_range.mp hk
    have hP : ((t * 16 + mapf s0) * 256 + o) / 256 = t * 16 + mapf s0 := by omega
    rw [hP]
    intro hEq
    have hm : mapf (s0 + 1 + k) = mapf s0 := by omega
    have := hinj _ (by omega) _ hs0 hm
    omega

/-- The outer track loop leaves a byte unchanged when no processed
track and slot maps to its sector. -/
theorem outerFold_untouched (src mapf : Nat → Nat) (l : List Nat)
    (acc : Nat → Nat) (P : Nat)
    (h : ∀ t ∈ l, ∀ ss, ss < 16 → t * 16 + mapf ss ≠ P / 256) :
    (l.foldl
      (fun acc t =>
        (List.range 16).foldl
          (fun acc2 ss =>
            sectorCopy src acc2 ((t * 16 + ss) * 256) ((t * 16 + mapf ss) * 256))
          acc) acc) P = acc P := by
  induction l generalizing acc with
  | nil => rfl
  | cons a l ih =>
    rw [List.foldl_cons, ih _ (fun t ht => h t (List.mem_cons_of_mem a ht))]
    exact innerFold_untouched src mapf a (List.range 16) acc P
      (fun ss hss => h a (List.mem_cons_self a l) ss (List.mem_range.mp hss))

/-- Value of the full reinterleave loop: the byte at track t0, slot
mapf s0, offset o of the output is the input byte at track t0, slot
s0, offset o. -/
theorem reinterleaveLoop_value (src mapf : Nat → Nat) (t0 s0 o : Nat)
    (ht : t0 < 35) (hs0 : s0 < 16) (ho : o < 256)
    (hbound : ∀ s, s < 16 → mapf s < 16)
    (hinj : ∀ s1, s1 < 16 → ∀ s2, s2 < 16 → mapf s1 = mapf s2 → s1 = s2) :
    reinterleaveLoop src mapf ((t0 * 16 + mapf s0) * 256 + o) =
      src ((t0 * 16 + s0) * 256 + o) := by
  unfold reinterleaveLoop
  have hsplit : List.range 35 =
      List.range (t0 + 1) ++ (List.range (34 - t0)).map (fun x => (t0 + 1) + x) := by
    rw [← List.range_add]
    congr 1
    omega
  have hrs : List.range (t0 + 1) = List.range t0 ++ [t0] := List.range_succ t0
  rw [hsplit, List.foldl_append, hrs, List.foldl_append]
  rw [outerFold_untouched]
  · rw [List.foldl_cons, List.foldl_nil]
    exact innerFold_value src mapf t0 s0 _ o hs0 ho hinj
  · intro t ht2 ss hss
    obtain ⟨k, hk, rfl⟩ := List.mem_map.mp ht2
    have hklt : k < 34 - t0 := List.mem_range.mp hk
    have hP : ((t0 * 16 + mapf s0) * 256 + o) / 256 = t0 * 16 + mapf s0 := by omega
    rw [hP]
    have hms0 : mapf s0 < 16 := hbound s0 hs0
    omega

/-- Round trip through two interleavings for any tables whose composite
maps are bounded, injective and mutually inverse on the 16 slots. -/
theorem reinterleave_roundtrip_tables (A B : List Nat)
    (hb1 : ∀ s, s < 16 → compose_get A B s < 16)
    (hinj1 : ∀ s1, s1 < 16 → ∀ s2, s2 < 16 → compose_get A B s1 = compose_get A B s2 → s1 = s2)
    (hb2 : ∀ s, s < 16 → compose_get B A s < 16)
    (hinj2 : ∀ s1, s1 < 16 → ∀ s2, s2 < 16 → compose_get B A s1 = compose_get B A s2 → s1 = s2)
    (hcomp : ∀ s, s < 16 → compose_get B A (compose_get A B s) = s)
    (src : Nat → Nat) (p : Nat) (hp : p < 143360) :
    reinterleave (reinterleave src A B) B A p = src p := by
  by_cases hEq : A = B
  · simp [reinterleave, hEq]
  · have hEq2 : B ≠ A := fun hh => hEq hh.symm
    rw [reinterleave, if_neg hEq2, reinterleave, if_neg hEq]
    set t := p / 4096 with hT
    set s := (p / 256) % 16 with hS
    set o := p % 256 with hO
    have ht : t < 35 := by omega
    have hs : s < 16 := by omega
    have ho : o < 256 := by omega
    have hdecomp : p = (t * 16 + s) * 256 + o := by omega
    have h1 : p = (t * 16 + compose_get B A (compose_get A B s)) * 256 + o := by
      rw [hcomp s hs]
      exact hdecomp
    rw [h1, reinterleaveLoop_value _ _ t (compose_get A B s) o ht (hb1 s hs) ho hb2 hinj2]
    rw [reinterleaveLoop_value _ _ t s o ht hs ho hb1 hinj1]
    exact congrArg src (by rw [hcomp s hs])

/-- Claim C3: for every 143360-byte buffer and every pair of named
sector orderings A and B, converting from A to B and then from B to A
yields the original buffer byte for byte. -/
theorem claim_C3_reinterleave_roundtrip (a b : String)
    (ha : a ∈ interleave_names) (hb : b ∈ interleave_names)
    (src : Nat → Nat) (p : Nat) (hp : p < 143360) :
    reinterleave (reinterleave src (interleave_tables a) (interleave_tables b))
      (interleave_tables b) (interleave_tables a) p = src p := by
  fin_cases ha <;> fin_cases hb <;>
    exact reinterleave_roundtrip_tables _ _
      (by decide) (by decide) (by decide) (by decide) (by decide) src p hp

/-- Witness: round trip through dos order and prodos order returns the
sample buffer byte at position 5000. -/
theorem claim_C3_witness :
    reinterleave (reinterleave (fun q => q % 256) (interleave_tables "do")
        (interleave_tables "po"))
      (interleave_tables "po") (interleave_tables "do") 5000 = 5000 % 256 :=
  claim_C3_reinterleave_roundtrip "do" "po" (by decide) (by decide)
    (fun q => q % 256) 5000 (by decide)
